import Mathlib

/-!
Verification development for the support-chatbot repository.

The repository contains two divergent revisions of its core services:
* the current revision under `src/services/` (`ChatService.ts` with the
  session-identity state machine, `MatchingEngine.ts` with vector search and
  the lexical text-search fallback, `SalesforceService.ts`,
  `EmbeddingService.ts`) — modelled below with the suffix `V1`;
* the earlier revision preserved in the repository (the exhaustive-scan
  `MatchingEngine` and the `ChatService` with the input-validation guard and
  the Salesforce escalation flow) — modelled below with the suffix `V2`.

Numbers are modelled as rationals.  JavaScript string operations
(`trim`, `split`, `includes`, `toLowerCase`, `charAt(0).toUpperCase()`)
are modelled character-list-wise with JS semantics.  Every external call
(database, embedding provider, vector index, ticketing system, logging) is
an oracle in an explicit environment record that may return a value or
throw (`Except`), and externally visible writes and calls are recorded in
an event trace, so that claims about "no exception escapes", "exactly one
record written" and "the ticketing system was (not) called" are statable.
-/

namespace SupportChatbot

/-! ### JS string primitives (character-list models) -/

/-- JS whitespace test (the characters relevant to this code base). -/
def isWsChar (c : Char) : Bool :=
  c = ' ' || c = '\t' || c = '\n' || c = '\r'

/-- `String.prototype.trim`: drop whitespace from both ends. -/
def jsTrim (s : String) : String :=
  String.mk (((s.data.dropWhile isWsChar).reverse.dropWhile isWsChar).reverse)

/-- Accumulator for `jsSplit`: splits a character list at every occurrence
of `c`, keeping empty fields, exactly like `String.prototype.split`. -/
def jsSplitAux (c : Char) : List Char → List Char → List (List Char)
  | [], acc => [acc.reverse]
  | x :: xs, acc =>
    if x = c then acc.reverse :: jsSplitAux c xs [] else jsSplitAux c xs (x :: acc)

/-- `String.prototype.split(c)`. -/
def jsSplit (s : String) (c : Char) : List String :=
  (jsSplitAux c s.data []).map String.mk

/-- `String.prototype.includes(c)` for a single-character needle. -/
def containsChar (s : String) (c : Char) : Bool :=
  s.data.contains c

/-- Boolean list-prefix test. -/
def listIsPref : List Char → List Char → Bool
  | [], _ => true
  | _ :: _, [] => false
  | a :: as, b :: bs => a = b && listIsPref as bs

/-- Boolean list-infix test (needle occurs contiguously in the haystack). -/
def listIsInf (n : List Char) : List Char → Bool
  | [] => listIsPref n []
  | b :: bs => listIsPref n (b :: bs) || listIsInf n bs

/-- `String.prototype.includes(sub)`: substring anywhere. -/
def containsSub (s sub : String) : Bool :=
  listIsInf sub.data s.data

/-- `String.prototype.toLowerCase` (ASCII, per-character). -/
def toLowerStr (s : String) : String :=
  String.mk (s.data.map Char.toLower)

/-- `s.charAt(0).toUpperCase() + s.slice(1)`. -/
def capitalizeFirst (s : String) : String :=
  match s.data with
  | [] => ""
  | c :: rest => String.mk (c.toUpper :: rest)

/-- JS truthiness of an optional string field (`undefined` and `''` are falsy). -/
def optTruthy : Option String → Bool
  | none => false
  | some s => !s.data.isEmpty

/-! ### EmbeddingService.calculateCosineSimilarity

Source: `src/services/EmbeddingService.ts`.  The code throws when the two
vectors have different lengths; otherwise it accumulates, in one loop,
`dotProduct`, `norm1 = Σ a_i²`, `norm2 = Σ b_i²`, forms
`magnitude = √norm1 · √norm2`, returns `0` when `magnitude === 0`, and
otherwise returns `dotProduct / magnitude`.  Over the reals,
`√norm1 · √norm2 = 0` exactly when `norm1 * norm2 = 0`, which is how the
zero test is rendered here over ℚ; the exact value of the nonzero quotient
is not the subject of any claim, so the model divides by `norm1 * norm2`
(a positive quantity exactly when the code's divisor is). -/

/-- Sum of squares of a vector (the code's `norm1`/`norm2` accumulators). -/
def sumSq (v : List ℚ) : ℚ :=
  (v.map (fun x => x * x)).sum

/-- Dot product of two equal-length vectors. -/
def dotProd (a b : List ℚ) : ℚ :=
  (List.zipWith (fun x y => x * y) a b).sum

/-- `EmbeddingService.calculateCosineSimilarity`. -/
def calculateCosineSimilarity (e1 e2 : List ℚ) : Except String ℚ :=
  if e1.length ≠ e2.length then
    .error "Embeddings must have the same dimension"
  else
    if sumSq e1 * sumSq e2 = 0 then .ok 0
    else .ok (dotProd e1 e2 / (sumSq e1 * sumSq e2))

/-! ### Data model -/

/-- A knowledge-base entry as used by the exhaustive-scan engine. -/
structure KnowledgeEntry where
  id : Nat
  primary_question : String
  alternate_questions : List String
  answer_text : String
  confidence_weight : ℚ
deriving DecidableEq, Repr

/-- `MatchResult` of the exhaustive-scan engine (no `source` field in that
revision; `processing_time_ms` is wall-clock noise and not modelled). -/
structure MatchResultV2 where
  matched_entry : Option KnowledgeEntry
  confidence_score : ℚ
  is_confident : Bool
deriving DecidableEq, Repr

/-! ### Exhaustive-scan MatchingEngine (revision V2) -/

/-- Environment of the exhaustive-scan engine: the knowledge store
(`KnowledgeBaseModel.findAll`, which may throw) and the embedding provider
(`EmbeddingService.generateEmbedding`, which may throw). -/
structure EngineEnvV2 where
  kbEntriesE : Except String (List KnowledgeEntry)
  embed : String → Except String (List ℚ)

/-- The per-entry inner loop: for each question variant, embed it, compute
cosine similarity with the user-question embedding `ue`, and keep the
running maximum (starting from 0, as in `let maxSimilarity = 0`).
An exception from any variant aborts the whole entry (caught by the
per-entry `catch`). -/
def entryMaxSimilarity (env : EngineEnvV2) (ue : List ℚ) :
    List String → ℚ → Except String ℚ
  | [], maxSim => .ok maxSim
  | q :: rest, maxSim => do
    let qe ← env.embed q
    let sim ← calculateCosineSimilarity ue qe
    entryMaxSimilarity env ue rest (max maxSim sim)

/-- Score of one entry in the scan: max similarity over
`primary_question :: alternate_questions` times `confidence_weight`
(the code's `finalConfidenceScore`). -/
def scoreEntry (env : EngineEnvV2) (ue : List ℚ) (e : KnowledgeEntry) :
    Except String ℚ := do
  let maxSim ← entryMaxSimilarity env ue (e.primary_question :: e.alternate_questions) 0
  .ok (maxSim * e.confidence_weight)

/-- Modelled from the spec: the similarities of all of an entry's question
variants, as a list (spec-shaped counterpart of the code's running maximum,
used to compare code with spec in refinement lemmas). -/
def variantSims (env : EngineEnvV2) (ue : List ℚ) : List String → Except String (List ℚ)
  | [] => .ok []
  | q :: rest => do
    let qe ← env.embed q
    let sim ← calculateCosineSimilarity ue qe
    let restSims ← variantSims env ue rest
    .ok (sim :: restSims)

/-- Modelled from the spec: "take the maximum similarity across all of an
entry's question variants, multiply by that entry's confidence_weight".
(The maximum is taken together with the code's 0 starting point.) -/
def specEntryScore (env : EngineEnvV2) (ue : List ℚ) (e : KnowledgeEntry) :
    Except String ℚ :=
  (variantSims env ue (e.primary_question :: e.alternate_questions)).map
    (fun sims => sims.foldl max 0 * e.confidence_weight)

/-- The scan loop over the entries, threading the best match and best score
(`bestMatch`, `bestConfidenceScore`); a failing entry is skipped
(per-entry `catch` with "Continue with other entries"). -/
def scanEntries (env : EngineEnvV2) (ue : List ℚ) :
    List KnowledgeEntry → Option KnowledgeEntry × ℚ → Option KnowledgeEntry × ℚ
  | [], acc => acc
  | e :: rest, (bm, bs) =>
    match scoreEntry env ue e with
    | .ok s => if s > bs then scanEntries env ue rest (some e, s)
               else scanEntries env ue rest (bm, bs)
    | .error _ => scanEntries env ue rest (bm, bs)

/-- The exhaustive-scan `findBestMatch`: empty store or a failing store /
embedding call yields the non-confident null result; otherwise scan all
entries and apply the threshold decision
(`isConfident = bestConfidenceScore >= this.confidenceThreshold`,
`matched_entry = isConfident ? bestMatch : null`). -/
def findBestMatchV2 (env : EngineEnvV2) (threshold : ℚ) (userQuestion : String) :
    MatchResultV2 :=
  match env.kbEntriesE with
  | .error _ => ⟨none, 0, false⟩
  | .ok kbEntries =>
    if kbEntries.isEmpty then ⟨none, 0, false⟩
    else
      match env.embed userQuestion with
      | .error _ => ⟨none, 0, false⟩
      | .ok ue =>
        let best := scanEntries env ue kbEntries (none, 0)
        let isConf : Bool := decide (best.2 ≥ threshold)
        ⟨if isConf then best.1 else none, best.2, isConf⟩

/-- Keyword lists of the exhaustive-scan `detectCategory`. -/
def doiKeywords : List String :=
  ["doi", "digital object identifier", "publication", "paper", "article", "journal"]

def accessKeywords : List String :=
  ["login", "password", "access", "account", "sign in", "authentication", "credentials"]

def hostingKeywords : List String :=
  ["hosting", "server", "domain", "website", "deployment", "bandwidth", "storage"]

/-- The exhaustive-scan revision's `detectCategory`: ordered, case-insensitive
substring matching, first hit wins, default `Unknown`. -/
def detectCategoryV2 (q : String) : String :=
  let lower := toLowerStr q
  if doiKeywords.any (fun k => containsSub lower k) then "DOI"
  else if accessKeywords.any (fun k => containsSub lower k) then "Access"
  else if hostingKeywords.any (fun k => containsSub lower k) then "Hosting"
  else "Unknown"

/-- Mutable engine state of the exhaustive-scan revision (just the threshold). -/
structure EngineStateV2 where
  threshold : ℚ
deriving DecidableEq, Repr

/-- `config.confidenceThreshold` default: `parseFloat('0.7')`. -/
def defaultConfidenceThresholdV2 : ℚ := 0.7

/-- The exhaustive-scan revision's `updateConfidenceThreshold`: throws on a
value outside [0,1] (leaving the state unchanged), assigns otherwise. -/
def updateConfidenceThresholdV2 (st : EngineStateV2) (v : ℚ) :
    Except String EngineStateV2 :=
  if v < 0 ∨ v > 1 then .error "Confidence threshold must be between 0.0 and 1.0"
  else .ok { st with threshold := v }

/-! ### Vector/lexical MatchingEngine (revision V1, `src/services/MatchingEngine.ts`) -/

/-- Outcome of one `model.embedContent` attempt in `generateEmbedding`. -/
inductive EmbedOutcome where
  | success (v : List ℚ)
  | err403
  | err429
  | errOther
deriving DecidableEq

/-- Metadata payload attached to a vector-index match or a text-search row. -/
structure MetaV1 where
  answer_text : String
deriving DecidableEq, Repr

/-- A row returned by the ranked full-text SQL query. -/
structure TextRowV1 where
  entry : MetaV1
  search_rank : ℚ
deriving DecidableEq, Repr

/-- Environment of the vector/lexical engine: embedding attempts (by attempt
index), the Pinecone query, and the ranked text query (rows already ordered
by rank, as the SQL `ORDER BY search_rank DESC LIMIT 1` delivers them). -/
structure EngineEnvV1 where
  embedAttempt : Nat → EmbedOutcome
  pineconeQuery : List ℚ → Except String (List (ℚ × MetaV1))
  textQuery : Except String (List TextRowV1)

/-- The retry loop of `generateEmbedding` (`maxRetries = 3`): success returns
the vector; a 403 aborts with `null`; a 429 backs off and retries; any other
error returns `null`; exhausting the attempts returns `null`. -/
def genEmbedAux (env : EngineEnvV1) : Nat → Nat → Option (List ℚ)
  | 0, _ => none
  | fuel + 1, attempt =>
    match env.embedAttempt attempt with
    | .success v => some v
    | .err403 => none
    | .err429 => genEmbedAux env fuel (attempt + 1)
    | .errOther => none

/-- `MatchingEngine.generateEmbedding` (vector/lexical revision). -/
def generateEmbeddingV1 (env : EngineEnvV1) : Option (List ℚ) :=
  genEmbedAux env 3 0

/-- `performVectorSearch`: `null` embedding or a throwing/empty index query
yields `null`; otherwise the single top match (score, metadata). -/
def performVectorSearchV1 (env : EngineEnvV1) : Option (ℚ × MetaV1) :=
  match generateEmbeddingV1 env with
  | none => none
  | some v =>
    match env.pineconeQuery v with
    | .error _ => none
    | .ok [] => none
    | .ok (m :: _) => some m

/-- `performTextSearch`: a throwing query or no row yields `null`; otherwise
the top-ranked row. -/
def performTextSearchV1 (env : EngineEnvV1) : Option TextRowV1 :=
  match env.textQuery with
  | .error _ => none
  | .ok [] => none
  | .ok (r :: _) => some r

inductive SourceV1 where
  | VECTOR
  | TEXT
  | NONE
deriving DecidableEq, Repr

/-- `MatchResult` of the vector/lexical revision. -/
structure MatchResultV1 where
  matched_entry : Option MetaV1
  confidence_score : ℚ
  is_confident : Bool
  source : SourceV1
deriving DecidableEq, Repr

/-- The text-search arm of `findBestMatch`: a hit is always flagged
confident, with `dynamicScore = rank > 0 ? min(0.85 + rank, 0.95) : 0.85`;
no hit yields the NONE result. -/
def findTextV1 (env : EngineEnvV1) : MatchResultV1 :=
  match performTextSearchV1 env with
  | some r =>
    let dynamicScore : ℚ :=
      if r.search_rank > 0 then min (0.85 + r.search_rank) 0.95 else 0.85
    ⟨some r.entry, dynamicScore, true, .TEXT⟩
  | none => ⟨none, 0, false, .NONE⟩

/-- The vector/lexical `findBestMatch`: accept a vector match at or above the
threshold as VECTOR; otherwise fall back to text search.  (The enclosing
`catch` returns the NONE result, but both search helpers already swallow
their own failures.) -/
def findBestMatchV1 (env : EngineEnvV1) (threshold : ℚ) : MatchResultV1 :=
  match performVectorSearchV1 env with
  | some m =>
    if m.1 ≥ threshold then ⟨some m.2, m.1, true, .VECTOR⟩
    else findTextV1 env
  | none => findTextV1 env

/-- Mutable engine state of the vector/lexical revision. -/
structure EngineStateV1 where
  threshold : ℚ
deriving DecidableEq, Repr

/-- `private CONFIDENCE_THRESHOLD = 0.75` (vector/lexical revision default). -/
def defaultEngineStateV1 : EngineStateV1 := ⟨0.75⟩

/-- The vector/lexical revision's `updateConfidenceThreshold(val)`: a bare
assignment, no validation. -/
def updateConfidenceThresholdV1 (st : EngineStateV1) (v : ℚ) : EngineStateV1 :=
  { st with threshold := v }

/-! ### SalesforceService (`src/services/SalesforceService.ts`) -/

/-- Events of the ticketing flow: which authentication path ran (cached
token vs. fresh OAuth round-trip) and each HTTP case-create attempt
(`retry = true` for the one inside `createCaseRetry`). -/
inductive SfEvent where
  | authCached
  | authFresh
  | postAttempt (retry : Bool)
deriving DecidableEq, Repr

/-- Salesforce service instance state: mock-mode flag, cached access token
and whether `new Date() < this.tokenExpiry` currently holds. -/
structure SfState where
  useMockMode : Bool
  accessToken : Option String
  tokenValid : Bool
deriving DecidableEq, Repr

/-- Environment of the ticketing flow: the outcome of a fresh OAuth call,
the outcome of a case-create POST (`retry` distinguishes the two call
sites, whose subjects differ), and `Date.now()`. -/
structure SfEnv where
  authResult : Except String String
  postCase : Bool → Except String String
  now : Nat

/-- Mock case id: `` `SF-${Date.now().toString().slice(-6)}` ``. -/
def mockCaseId (env : SfEnv) : String :=
  "SF-" ++ String.mk ((toString env.now).data.reverse.take 6).reverse

/-- `SalesforceService.authenticate`: mock mode fabricates a token; a valid
cached token is reused; otherwise a fresh OAuth call, whose failure is
rethrown as "Failed to authenticate with Salesforce". -/
def authenticateSf (env : SfEnv) (st : SfState) :
    Except String (String × SfState) × List SfEvent :=
  if st.useMockMode then
    (.ok ("mock_access_token_" ++ toString env.now, st), [])
  else if st.accessToken.isSome && st.tokenValid then
    (.ok ((st.accessToken.getD ""), st), [.authCached])
  else
    match env.authResult with
    | .ok tok => (.ok (tok, { st with accessToken := some tok, tokenValid := true }),
                  [.authFresh])
    | .error _ => (.error "Failed to authenticate with Salesforce", [.authFresh])

/-- `SalesforceService.createCaseRetry`: clear the cached token and its
expiry (forcing a fresh authentication), authenticate, POST the case again;
any failure is an error the caller turns into the final failure. -/
def createCaseRetrySf (env : SfEnv) (st : SfState) :
    Except String String × List SfEvent :=
  if st.useMockMode then (.ok (mockCaseId env), [])
  else
    let cleared := { st with accessToken := none, tokenValid := false }
    match authenticateSf env cleared with
    | (.ok _, evs) =>
      match env.postCase true with
      | .ok id => (.ok id, evs ++ [.postAttempt true])
      | .error e => (.error e, evs ++ [.postAttempt true])
    | (.error e, evs) => (.error e, evs)

/-- `SalesforceService.createCase`: mock mode short-circuits; otherwise
authenticate and POST; on any failure (auth or POST) run `createCaseRetry`
once; if that also fails, throw
"Failed to create Salesforce case after retry". -/
def createCaseSf (env : SfEnv) (st : SfState) :
    Except String String × List SfEvent :=
  if st.useMockMode then (.ok (mockCaseId env), [])
  else
    match authenticateSf env st with
    | (.ok _, evs1) =>
      (match env.postCase false with
       | .ok id => (.ok id, evs1 ++ [.postAttempt false])
       | .error _ =>
         match createCaseRetrySf env st with
         | (.ok id, evs2) => (.ok id, evs1 ++ [.postAttempt false] ++ evs2)
         | (.error _, evs2) =>
           (.error "Failed to create Salesforce case after retry",
            evs1 ++ [.postAttempt false] ++ evs2))
    | (.error _, evs1) =>
      match createCaseRetrySf env st with
      | (.ok id, evs2) => (.ok id, evs1 ++ evs2)
      | (.error _, evs2) =>
        (.error "Failed to create Salesforce case after retry", evs1 ++ evs2)

/-! ### Chat wire contract -/

inductive RespType where
  | ANSWERED
  | ESCALATED
  | COLLECT_INFO
  | ERROR
deriving DecidableEq, Repr

structure ChatResponse where
  response_type : RespType
  answer : Option String := none
  message : Option String := none
  case_id : Option String := none
  confidence_score : Option ℚ := none
  info_needed : List String := []
deriving DecidableEq, Repr

structure UserInfo where
  name : Option String := none
  email : Option String := none
  organization : Option String := none
deriving DecidableEq, Repr

structure ChatRequest where
  user_question : String
  user_session_id : Option String := none
  user_info : Option UserInfo := none
deriving DecidableEq, Repr

/-- Arguments the exhaustive-scan revision passes to
`salesforceService.createCase`. -/
structure CaseArgs where
  userQuestion : String
  detectedCategory : String
  confidenceScore : ℚ
  userName : String
  userEmail : String
  userOrganization : String
deriving DecidableEq, Repr

/-- Externally visible calls and completed writes of a chat turn.
`chatLog` and `unansweredCreate` are recorded only when the INSERT
succeeds (a failed write persists nothing); `matchCall` and `caseCreate`
are recorded at call time. -/
inductive ChatEvent where
  | chatLog (respType : String)
  | unansweredCreate (q : String)
  | matchCall (q : String)
  | caseCreate (args : CaseArgs)
  | upsertUser (name email org : String)
  | sessionSet (sid : String)
deriving DecidableEq, Repr

def isCaseCreateEvent : ChatEvent → Bool
  | .caseCreate _ => true
  | _ => false

def isUnansweredEvent : ChatEvent → Bool
  | .unansweredCreate _ => true
  | _ => false

def isMatchCallEvent : ChatEvent → Bool
  | .matchCall _ => true
  | _ => false

/-! ### ChatService, exhaustive-scan revision (V2) -/

/-- `STATIC_MESSAGES.ERROR`. -/
def staticErrorMsg : String :=
  "Sorry, something went wrong on our end. Your request has been escalated to our support team."

/-- `STATIC_MESSAGES.CONFIDENCE_RESPONSE`. -/
def confidencePreamble : String :=
  "You are in good hands! I can help you with it"

/-- `STATIC_MESSAGES.COLLECT_INFO`. -/
def collectInfoMsgV2 : String :=
  "To create a support ticket for you, I\x27ll need some information. Please provide your name, email, and organization."

/-- `STATIC_MESSAGES.ESCALATION_WITH_INFO` with its four placeholders
substituted (each occurs exactly once, so the code's chain of
`String.replace` calls amounts to this substitution). -/
def escalationMsgV2 (name email org caseId : String) : String :=
  "Thanks for your question. I wasn\x27t able to confidently answer this, but I\x27ve raised a support ticket for you.\n\n**Support Ticket Details:**\n• **Name:** " ++
  name ++ "\n• **Email:** " ++ email ++ "  \n• **Organization:** " ++ org ++
  "\n• **Case ID:** " ++ caseId ++ "\n\nOur team will get back to you shortly."

/-- Environment of the exhaustive-scan `ChatService`: chat-log insert
(keyed here by the response type written), the matching engine call, the
ticketing call, the unanswered-question insert, and `Date.now()`. -/
structure EnvV2 where
  chatLogCreate : String → Except String Unit
  findBestMatch : String → Except String MatchResultV2
  createCase : CaseArgs → Except String String
  unansweredCreate : String → Except String Unit
  now : Nat

/-- `handleError`: log the error interaction (its own failure is swallowed)
and return the static ERROR response. -/
def handleErrorV2 (env : EnvV2) : ChatResponse × List ChatEvent :=
  match env.chatLogCreate "ERROR" with
  | .ok _ => ({ response_type := .ERROR, message := some staticErrorMsg },
              [.chatLog "ERROR"])
  | .error _ => ({ response_type := .ERROR, message := some staticErrorMsg }, [])

/-- Whether `request.user_info && name && email && organization` holds. -/
def userInfoComplete (u : Option UserInfo) : Bool :=
  match u with
  | none => false
  | some u => optTruthy u.name && optTruthy u.email && optTruthy u.organization

/-- `handleEscalation` of the exhaustive-scan revision: missing identity
fields yield COLLECT_INFO; otherwise detect the category, create the
Salesforce case (its failure is caught and replaced by the fallback id
`` `SF-${Date.now()}` ``), log the escalation, record the unanswered
question, and return ESCALATED; a failure of either write falls into the
outer `catch`, which delegates to `handleError`. -/
def handleEscalationV2 (env : EnvV2) (req : ChatRequest) (mr : MatchResultV2) :
    ChatResponse × List ChatEvent :=
  if !userInfoComplete req.user_info then
    ({ response_type := .COLLECT_INFO, message := some collectInfoMsgV2,
       info_needed := ["name", "email", "organization"] }, [])
  else
    let u := (req.user_info).getD {}
    let name := u.name.getD ""
    let email := u.email.getD ""
    let org := u.organization.getD ""
    let cat := detectCategoryV2 req.user_question
    let args : CaseArgs :=
      ⟨req.user_question, cat, mr.confidence_score, name, email, org⟩
    let caseId :=
      match env.createCase args with
      | .ok id => id
      | .error _ => "SF-" ++ toString env.now
    let msg := escalationMsgV2 name email org caseId
    match env.chatLogCreate "ESCALATED" with
    | .error _ =>
      let he := handleErrorV2 env
      (he.1, [.caseCreate args] ++ he.2)
    | .ok _ =>
      match env.unansweredCreate req.user_question with
      | .error _ =>
        let he := handleErrorV2 env
        (he.1, [.caseCreate args, .chatLog "ESCALATED"] ++ he.2)
      | .ok _ =>
        ({ response_type := .ESCALATED, message := some msg, case_id := some caseId },
         [.caseCreate args, .chatLog "ESCALATED", .unansweredCreate req.user_question])

/-- `handleAnswered` of the exhaustive-scan revision: compose the static
preamble plus `answer_text` and log; a failure (including a null
`matched_entry` dereference) falls into the `catch`, which escalates with
the same match result. -/
def handleAnsweredV2 (env : EnvV2) (req : ChatRequest) (mr : MatchResultV2) :
    ChatResponse × List ChatEvent :=
  match mr.matched_entry with
  | none => handleEscalationV2 env req mr
  | some e =>
    let text := confidencePreamble ++ "\n\n" ++ e.answer_text
    match env.chatLogCreate "ANSWERED" with
    | .ok _ =>
      ({ response_type := .ANSWERED, answer := some text,
         confidence_score := some mr.confidence_score }, [.chatLog "ANSWERED"])
    | .error _ => handleEscalationV2 env req mr

/-- The mock non-confident match result used when full user info is present. -/
def mockMatchResult : MatchResultV2 := ⟨none, 0, false⟩

/-- `processQuestion` of the exhaustive-scan revision: validation guard
(empty or overlong input → `handleError`), the provided-identity
short-circuit straight to escalation, then matching; a throw from the
engine call is caught by the outer `catch` into `handleError`. -/
def processQuestionV2 (env : EnvV2) (req : ChatRequest) :
    ChatResponse × List ChatEvent :=
  if (jsTrim req.user_question).data.isEmpty then handleErrorV2 env
  else if req.user_question.length > 1000 then handleErrorV2 env
  else if userInfoComplete req.user_info then
    handleEscalationV2 env req mockMatchResult
  else
    let q := jsTrim req.user_question
    match env.findBestMatch q with
    | .error _ =>
      let he := handleErrorV2 env
      (he.1, [.matchCall q] ++ he.2)
    | .ok mr =>
      if mr.is_confident && mr.matched_entry.isSome then
        let ha := handleAnsweredV2 env req mr
        (ha.1, [.matchCall q] ++ ha.2)
      else
        let he := handleEscalationV2 env req mr
        (he.1, [.matchCall q] ++ he.2)

/-! ### ChatService, current revision (V1, `src/services/ChatService.ts`) -/

/-- `extractOrgFromEmail`: the email's domain label (text after the first
`@`, before the first `.`), capitalized; the `catch` arm (reached in JS
when the email has no `@` at all, so that `split('@')[1]` is undefined)
returns "N/A". -/
def extractOrgFromEmail (email : String) : String :=
  match jsSplit email '@' with
  | _ :: domain :: _ =>
    capitalizeFirst (String.mk (domain.data.takeWhile (fun c => c ≠ '.')))
  | _ => "N/A"

/-- Environment of the current `ChatService`: the in-process session map,
the user upsert, the matching engine, the two log inserts, and the
outcome of `Math.floor(Math.random() * 900000)`. -/
structure EnvV1 where
  sessionMap : String → Option (String × String × String)
  upsertUser : String → String → String → Except String Unit
  findBestMatch : String → Except String MatchResultV1
  chatLogCreate : String → Except String Unit
  unansweredCreate : String → Except String Unit
  randCaseNum : Nat

/-- Step 1 of `processQuestion`: restore `user_info` from the session map
when no identity was sent but a (truthy) session id was. -/
def restoreUserInfo (env : EnvV1) (req : ChatRequest) : Option UserInfo :=
  match req.user_info with
  | some u => some u
  | none =>
    if optTruthy req.user_session_id then
      match env.sessionMap ((req.user_session_id).getD "") with
      | some t => some ⟨some t.1, some t.2.1, some t.2.2⟩
      | none => none
    else none

/-- `Boolean(user_info?.name) && Boolean(user_info?.email)`. -/
def hasIdentity (u : Option UserInfo) : Bool :=
  match u with
  | none => false
  | some u => optTruthy u.name && optTruthy u.email

/-- `logInteraction`: chat-log insert, then (for escalations only) the
unanswered-question insert; the whole thing sits in a `try/catch` that
swallows any failure, so a failed chat-log insert also skips the
unanswered-question insert. -/
def logInteractionV1 (env : EnvV1) (type q : String) : List ChatEvent :=
  match env.chatLogCreate type with
  | .error _ => []
  | .ok _ =>
    if type = "Escalation" then
      match env.unansweredCreate q with
      | .ok _ => [.chatLog type, .unansweredCreate q]
      | .error _ => [.chatLog type]
    else [.chatLog type]

/-- `parts[2] || this.extractOrgFromEmail(email)`: the third token when
present and truthy, otherwise the organization derived from the email. -/
def parsedOrg (parts : List String) (email : String) : String :=
  match parts.get? 2 with
  | some t => if t.data.isEmpty then extractOrgFromEmail email else t
  | none => extractOrgFromEmail email

/-- The identity-gate COLLECT_INFO message of the current revision. -/
def collectInfoMsgV1 : String :=
  "To start the conversation, please enter your **Name and Email** in this format:\n\n`Name, email@example.com`"

/-- The escalation-gate COLLECT_INFO message of the current revision. -/
def collectInfoEscMsgV1 : String :=
  "I couldn\x27t find an answer. To raise a support ticket, please provide your Name and Email."

/-- The ESCALATED message of the current revision. -/
def escalationMsgV1 (name email caseId : String) : String :=
  "Thanks for your question. I wasn\x27t able to confidently answer this, but I\x27ve raised a support ticket for you.\n\n**Support Ticket Details:**\n• **Name:** " ++
  name ++ "\n• **Email:** " ++ email ++ "\n• **Case ID:** " ++ caseId

/-- The body of the current revision's `processQuestion` (the `try` block):
session restore, identity gate, already-verified short-circuit, identity
parse, then matching with answer/escalation.  The only operation whose
exception is not swallowed before the top-level `catch` is the matching
engine call, hence the `Except`-valued result; the event list records what
happened before a throw. -/
def processQuestionBodyV1 (env : EnvV1) (req : ChatRequest) :
    Except String ChatResponse × List ChatEvent :=
  let input := jsTrim req.user_question
  let uinfo := restoreUserInfo env req
  let hasId := hasIdentity uinfo
  let looksLikeIdentity := containsChar input ',' && containsChar input '@'
  if !hasId && !looksLikeIdentity then
    (.ok { response_type := .COLLECT_INFO, message := some collectInfoMsgV1,
           info_needed := ["name", "email"] }, [])
  else if hasId && looksLikeIdentity then
    (.ok { response_type := .ANSWERED,
           answer := some "You\x27re already verified 😊\n\nHow can I help you today?",
           confidence_score := some 1 }, [])
  else if !hasId && looksLikeIdentity then
    let parts := (jsSplit input ',').map jsTrim
    let emailOpt := parts.find? (fun p => containsChar p '@')
    let name := parts.headD ""
    match emailOpt with
    | none =>
      (.ok { response_type := .COLLECT_INFO,
             message := some "Invalid format. Please enter:\n\n`Name, email@example.com`",
             info_needed := ["name", "email"] }, [])
    | some email =>
      if name.data.isEmpty then
        (.ok { response_type := .COLLECT_INFO,
               message := some "Invalid format. Please enter:\n\n`Name, email@example.com`",
               info_needed := ["name", "email"] }, [])
      else
        let org := parsedOrg parts email
        let upsertEvs :=
          match env.upsertUser name email org with
          | .ok _ => [ChatEvent.upsertUser name email org]
          | .error _ => []
        let sessEvs :=
          if optTruthy req.user_session_id then
            [ChatEvent.sessionSet ((req.user_session_id).getD "")]
          else []
        (.ok { response_type := .ANSWERED,
               answer := some ("Thanks **" ++ name ++ "**! Your profile is verified (Organization: " ++ org ++ ").\n\nHow can I help you today?"),
               confidence_score := some 1 }, upsertEvs ++ sessEvs)
  else
    match env.findBestMatch input with
    | .error e => (.error e, [.matchCall input])
    | .ok mr =>
      if mr.is_confident && mr.matched_entry.isSome then
        let m := mr.matched_entry.getD ⟨""⟩
        let text := confidencePreamble ++ "\n\n" ++ m.answer_text
        (.ok { response_type := .ANSWERED, answer := some text,
               confidence_score := some mr.confidence_score },
         [.matchCall input] ++ logInteractionV1 env "Answered" req.user_question)
      else
        match uinfo with
        | none =>
          (.ok { response_type := .COLLECT_INFO, message := some collectInfoEscMsgV1,
                 info_needed := ["name", "email"] }, [.matchCall input])
        | some u =>
          if !optTruthy u.name then
            (.ok { response_type := .COLLECT_INFO, message := some collectInfoEscMsgV1,
                   info_needed := ["name", "email"] }, [.matchCall input])
          else
            let caseId := "00" ++ toString (100000 + env.randCaseNum % 900000)
            let msg := escalationMsgV1 (u.name.getD "") (u.email.getD "") caseId
            (.ok { response_type := .ESCALATED, message := some msg,
                   case_id := some caseId },
             [.matchCall input] ++ logInteractionV1 env "Escalation" req.user_question)

/-- The current revision's `processQuestion`: the body wrapped in the
top-level `catch`, which maps any escaped failure to the generic ERROR
response ("Something went wrong."). -/
def processQuestionV1 (env : EnvV1) (req : ChatRequest) :
    ChatResponse × List ChatEvent :=
  match processQuestionBodyV1 env req with
  | (.ok r, evs) => (r, evs)
  | (.error _, evs) =>
    ({ response_type := .ERROR, message := some "Something went wrong." }, evs)

/-! ### Shared concrete environments for witnesses and counterexamples -/

/-- A non-confident NONE result of the vector/lexical engine. -/
def cxMatchNone : MatchResultV1 := ⟨none, 0, false, .NONE⟩

/-- All-healthy environment for the current `ChatService` whose matching
engine finds nothing confident. -/
def baseEnvV1 : EnvV1 :=
  ⟨fun _ => none, fun _ _ _ => .ok (), fun _ => .ok cxMatchNone,
   fun _ => .ok (), fun _ => .ok (), 123456⟩

/-- All-healthy environment for the exhaustive-scan `ChatService` whose
matching engine finds nothing confident. -/
def baseEnvV2 : EnvV2 :=
  ⟨fun _ => .ok (), fun _ => .ok ⟨none, 0, false⟩, fun _ => .ok "CASE-1",
   fun _ => .ok (), 1700000⟩

/-- Vector/lexical engine environment in which the embedding provider fails
outright (403 on every attempt) but the lexical search returns a
rank-0 row. -/
def cxEngineEnvV1 : EngineEnvV1 :=
  ⟨fun _ => .err403, fun _ => .ok [], .ok [⟨⟨"lexical answer"⟩, 0⟩]⟩

/-- Vector/lexical engine environment in which the embedding provider fails
outright and the lexical search returns no row. -/
def noHitEnvV1 : EngineEnvV1 :=
  ⟨fun _ => .err403, fun _ => .ok [], .ok []⟩

/-- A knowledge entry used by concrete witnesses. -/
def witEntry : KnowledgeEntry :=
  ⟨1, "how do I reset my password", [], "Use the reset link on the login page.", 1⟩

/-- Exhaustive-scan engine environment with one entry and a failing
embedding provider. -/
def failEmbedEnvV2 : EngineEnvV2 :=
  ⟨.ok [witEntry], fun _ => .error "Embedding service error: 503"⟩

/-- Exhaustive-scan engine environment with one entry and an embedding
provider that returns `[1]` for every text. -/
def scanWitEnv : EngineEnvV2 :=
  ⟨.ok [witEntry], fun _ => .ok [1]⟩

/-- A request carrying full identity and an ordinary question. -/
def cxReqIdentified : ChatRequest :=
  { user_question := "completely new question",
    user_info := some ⟨some "Kanak", some "kanak@mps.com", some "MPS"⟩ }

/-- Identity-submission example requests from the spec. -/
def reqIdentityEx1 : ChatRequest := { user_question := "Kanak, kanak@mps.com, MPS" }

def reqIdentityEx2 : ChatRequest := { user_question := "Kanak, kanak@mps.com" }

/-- The best final score over a list of entries (0 for an empty list; a
failing entry contributes nothing) — the value the scan's
`bestConfidenceScore` accumulator computes. -/
def bestOkScore (env : EngineEnvV2) (ue : List ℚ) (l : List KnowledgeEntry) : ℚ :=
  l.foldr (fun e acc =>
    match specEntryScore env ue e with
    | .ok s => max s acc
    | .error _ => acc) 0

/-- Salesforce state: non-mock, no cached token. -/
def sfStNoTok : SfState := ⟨false, none, false⟩

/-- Salesforce state: non-mock, valid cached token. -/
def sfStCached : SfState := ⟨false, some "cachedTok", true⟩

/-- Ticketing environment whose authentication succeeds but whose
case-create POST always fails. -/
def sfFailEnv : SfEnv := ⟨.ok "freshTok", fun _ => .error "HTTP 503", 1700000123⟩

/-- Chat environment whose ticketing call always fails. -/
def envV2CaseFail : EnvV2 :=
  { baseEnvV2 with createCase := fun _ => .error "ticketing down", now := 42 }

/-- The argument record the exhaustive-scan escalation passes to
`salesforceService.createCase`: question, detected category, confidence
score, and the known identity. -/
def caseArgsOf (req : ChatRequest) (n e o : String) (mr : MatchResultV2) : CaseArgs :=
  ⟨req.user_question, detectCategoryV2 req.user_question, mr.confidence_score, n, e, o⟩

/-! ### Helper lemmas -/

theorem optTruthy_some_of_ne {s : String} (h : s ≠ "") :
    optTruthy (some s) = true := by
  obtain ⟨l⟩ := s
  cases l with
  | nil => exact absurd rfl h
  | cons c cs => rfl

theorem userInfoComplete_some {n e o : String}
    (hn : n ≠ "") (he : e ≠ "") (ho : o ≠ "") :
    userInfoComplete (some ⟨some n, some e, some o⟩) = true := by
  simp [userInfoComplete, optTruthy_some_of_ne hn, optTruthy_some_of_ne he,
    optTruthy_some_of_ne ho]

/-- Concrete rational facts used by witnesses (kept as named lemmas so the
witness proofs are explicit terms). -/
theorem q07_pos : (0 : ℚ) < 0.7 := by norm_num

theorem q07_le_q85 : (0.7 : ℚ) ≤ 0.85 := by norm_num

theorem q65_gt_one : (6 : ℚ) / 5 > 1 := by norm_num

theorem q_half_nonneg : (0 : ℚ) ≤ 1 / 2 := by norm_num

theorem q_half_le_one : (1 : ℚ) / 2 ≤ 1 := by norm_num

theorem sumSq_pair_zero : sumSq [(0 : ℚ), 0] = 0 := by
  norm_num [sumSq]

/-! ## Claims -/

/-- **C1.** For every chat request (in both revisions of `processQuestion`,
over every behavior of the matching, ticketing, logging and persistence
oracles, each of which may throw), the returned response is exactly one of
ANSWERED, ESCALATED, COLLECT_INFO, ERROR, and a failure escaping the body
of the current revision is mapped by the top-level catch to ERROR rather
than propagating. -/
theorem processQuestion_closed_over_four_kinds
    (env1 : EnvV1) (req1 : ChatRequest) (env2 : EnvV2) (req2 : ChatRequest) :
    ((processQuestionV1 env1 req1).1.response_type = .ANSWERED ∨
     (processQuestionV1 env1 req1).1.response_type = .ESCALATED ∨
     (processQuestionV1 env1 req1).1.response_type = .COLLECT_INFO ∨
     (processQuestionV1 env1 req1).1.response_type = .ERROR) ∧
    ((processQuestionV2 env2 req2).1.response_type = .ANSWERED ∨
     (processQuestionV2 env2 req2).1.response_type = .ESCALATED ∨
     (processQuestionV2 env2 req2).1.response_type = .COLLECT_INFO ∨
     (processQuestionV2 env2 req2).1.response_type = .ERROR) ∧
    (∀ e evs, processQuestionBodyV1 env1 req1 = (.error e, evs) →
      (processQuestionV1 env1 req1).1.response_type = .ERROR) := by
  refine ⟨?_, ?_, ?_⟩
  · cases h : (processQuestionV1 env1 req1).1.response_type <;> simp
  · cases h : (processQuestionV2 env2 req2).1.response_type <;> simp
  · intro e evs h
    simp [processQuestionV1, h]

/-- **C9 counterexample.** In the current revision
(`src/services/MatchingEngine.ts`), `updateConfidenceThreshold` accepts the
out-of-range value 3/2 without validation and changes the threshold to it,
and the default threshold is 0.75, not 0.7. -/
theorem threshold_validation_cx :
    (updateConfidenceThresholdV1 defaultEngineStateV1 (3 / 2)).threshold = 3 / 2 ∧
    ¬((3 : ℚ) / 2 ≤ 1) ∧
    defaultEngineStateV1.threshold ≠ 0.7 := by
  refine ⟨rfl, by norm_num, ?_⟩
  show (0.75 : ℚ) ≠ 0.7
  norm_num

/-- **C9 (amended).** In the exhaustive-scan revision, every threshold
update is validated to [0,1]: an out-of-range value throws (leaving the
caller's state unchanged), an in-range value replaces the threshold, and
the default is 0.7; the current revision's setter instead assigns any value
unconditionally (and its default is 0.75). -/
theorem threshold_validation_amended
    (st2 : EngineStateV2) (st1 : EngineStateV1) (v : ℚ) :
    (v < 0 ∨ v > 1 → ∃ msg, updateConfidenceThresholdV2 st2 v = .error msg) ∧
    (0 ≤ v → v ≤ 1 →
      updateConfidenceThresholdV2 st2 v = .ok { st2 with threshold := v }) ∧
    defaultConfidenceThresholdV2 = 0.7 ∧
    updateConfidenceThresholdV1 st1 v = { st1 with threshold := v } := by
  refine ⟨?_, ?_, rfl, rfl⟩
  · intro h
    exact ⟨_, by rw [updateConfidenceThresholdV2, if_pos h]⟩
  · intro h0 h1
    rw [updateConfidenceThresholdV2, if_neg]
    push_neg
    exact ⟨h0, h1⟩

theorem threshold_validation_amended_witness :
    (∃ msg, updateConfidenceThresholdV2 ⟨0.7⟩ (6 / 5) = .error msg) ∧
    updateConfidenceThresholdV2 ⟨0.7⟩ (1 / 2) = .ok ⟨1 / 2⟩ :=
  ⟨(threshold_validation_amended ⟨0.7⟩ defaultEngineStateV1 (6 / 5)).1 (Or.inr q65_gt_one),
   (threshold_validation_amended ⟨0.7⟩ defaultEngineStateV1 (1 / 2)).2.1
     q_half_nonneg q_half_le_one⟩

/-- **C2 counterexample.** In the current revision, with the threshold set
to 9/10 (an in-range value), a lexical hit of rank 0 is returned with
`is_confident = true` although its dynamic score 0.85 is below the current
threshold — so `is_confident ⇔ confidence_score ≥ current_threshold` fails
for the lexical text-search branch. -/
theorem confident_iff_threshold_cx :
    (findBestMatchV1 cxEngineEnvV1 (9 / 10)).is_confident = true ∧
    ¬((findBestMatchV1 cxEngineEnvV1 (9 / 10)).confidence_score ≥ 9 / 10) := by
  have hrun : findBestMatchV1 cxEngineEnvV1 (9 / 10) =
      ⟨some ⟨"lexical answer"⟩, 0.85, true, .TEXT⟩ := by
    have h0 : ¬((0 : ℚ) > 0) := by norm_num
    simp [findBestMatchV1, performVectorSearchV1, generateEmbeddingV1, genEmbedAux,
      cxEngineEnvV1, findTextV1, performTextSearchV1, h0]
  rw [hrun]
  exact ⟨rfl, by norm_num⟩

/-- **C2 (amended).** In the current revision, `is_confident ⇔
confidence_score ≥ current_threshold` holds for every match result whenever
the current threshold is positive and at most 0.85; a lexical hit is always
flagged confident with a clamped score in [0.85, 0.95] even when the
threshold exceeds that score, and at threshold ≤ 0 the NONE result carries
score 0 ≥ threshold while `is_confident` stays false. -/
theorem confident_iff_threshold_amended (env : EngineEnvV1) (t : ℚ)
    (h0 : 0 < t) (h85 : t ≤ 0.85) :
    (findBestMatchV1 env t).is_confident = true ↔
    (findBestMatchV1 env t).confidence_score ≥ t := by
  have htext : (findTextV1 env).is_confident = true ↔
      (findTextV1 env).confidence_score ≥ t := by
    cases hts : performTextSearchV1 env with
    | none =>
      have hrun : findTextV1 env = ⟨none, 0, false, .NONE⟩ := by
        simp [findTextV1, hts]
      rw [hrun]
      constructor
      · intro h
        exact Bool.noConfusion h
      · intro h
        exact absurd h (not_le.mpr h0)
    | some r =>
      by_cases hr : r.search_rank > 0
      · have hrun : findTextV1 env =
            ⟨some r.entry, min (0.85 + r.search_rank) 0.95, true, .TEXT⟩ := by
          simp [findTextV1, hts, hr]
        rw [hrun]
        constructor
        · intro _
          exact le_trans h85 (le_min (by linarith) (by norm_num))
        · intro _
          rfl
      · have hrun : findTextV1 env = ⟨some r.entry, 0.85, true, .TEXT⟩ := by
          simp [findTextV1, hts, hr]
        rw [hrun]
        constructor
        · intro _
          exact h85
        · intro _
          rfl
  cases hv : performVectorSearchV1 env with
  | none =>
    have hrun : findBestMatchV1 env t = findTextV1 env := by
      simp [findBestMatchV1, hv]
    rw [hrun]
    exact htext
  | some m =>
    by_cases hm : m.1 ≥ t
    · have hrun : findBestMatchV1 env t = ⟨some m.2, m.1, true, .VECTOR⟩ := by
        simp [findBestMatchV1, hv, hm]
      rw [hrun]
      exact ⟨fun _ => hm, fun _ => rfl⟩
    · have hrun : findBestMatchV1 env t = findTextV1 env := by
        simp [findBestMatchV1, hv, hm]
      rw [hrun]
      exact htext

theorem confident_iff_threshold_amended_witness :
    (0 : ℚ) < 0.7 ∧ (0.7 : ℚ) ≤ 0.85 ∧
    ((findBestMatchV1 cxEngineEnvV1 0.7).is_confident = true ↔
      (findBestMatchV1 cxEngineEnvV1 0.7).confidence_score ≥ 0.7) :=
  ⟨q07_pos, q07_le_q85,
   confident_iff_threshold_amended cxEngineEnvV1 0.7 q07_pos q07_le_q85⟩

/-- **C10.** `calculateCosineSimilarity` is total on equal-length vectors:
it returns a value (never propagating a division by zero), returns 0 when
either vector has zero magnitude, and throws precisely when the two vectors
have different lengths. -/
theorem cosine_total_zeroMagnitude_throw (e1 e2 : List ℚ) :
    (e1.length = e2.length → ∃ r, calculateCosineSimilarity e1 e2 = .ok r) ∧
    (e1.length = e2.length → sumSq e1 = 0 ∨ sumSq e2 = 0 →
      calculateCosineSimilarity e1 e2 = .ok 0) ∧
    ((∃ msg, calculateCosineSimilarity e1 e2 = .error msg) ↔
      e1.length ≠ e2.length) := by
  refine ⟨?_, ?_, ?_, ?_⟩
  · intro h
    rw [calculateCosineSimilarity, if_neg (not_not_intro h)]
    by_cases hz : sumSq e1 * sumSq e2 = 0
    · exact ⟨0, by rw [if_pos hz]⟩
    · exact ⟨_, by rw [if_neg hz]⟩
  · intro h hz
    rw [calculateCosineSimilarity, if_neg (not_not_intro h), if_pos]
    rcases hz with h0 | h0 <;> simp [h0]
  · rintro ⟨msg, hmsg⟩ hlen
    rw [calculateCosineSimilarity, if_neg (not_not_intro hlen)] at hmsg
    by_cases hz : sumSq e1 * sumSq e2 = 0
    · rw [if_pos hz] at hmsg
      exact Except.noConfusion hmsg
    · rw [if_neg hz] at hmsg
      exact Except.noConfusion hmsg
  · intro h
    exact ⟨_, by rw [calculateCosineSimilarity, if_pos h]⟩

/-- The ERROR handler returns the static ERROR response and performs no
matching-engine call, ticketing call, or unanswered-question write. -/
theorem handleErrorV2_spec (env : EnvV2) :
    (handleErrorV2 env).1.response_type = .ERROR ∧
    ((handleErrorV2 env).2.filter
      (fun e => isMatchCallEvent e || isCaseCreateEvent e || isUnansweredEvent e)) = [] := by
  rw [handleErrorV2]
  cases h : env.chatLogCreate "ERROR" <;>
    simp [isMatchCallEvent, isCaseCreateEvent, isUnansweredEvent]

/-- **C4 counterexample.** In the current revision, with the embedding
provider failing outright (403 on every attempt), a lexical hit still
produces a confident TEXT result with a non-null matched entry — not the
non-confident NONE result the claim requires for every store contents. -/
theorem embed_failure_nonconfident_cx :
    generateEmbeddingV1 cxEngineEnvV1 = none ∧
    (findBestMatchV1 cxEngineEnvV1 (3 / 4)).is_confident = true ∧
    (findBestMatchV1 cxEngineEnvV1 (3 / 4)).matched_entry ≠ none ∧
    (findBestMatchV1 cxEngineEnvV1 (3 / 4)).source = .TEXT := by
  have hrun : findBestMatchV1 cxEngineEnvV1 (3 / 4) =
      ⟨some ⟨"lexical answer"⟩, 0.85, true, .TEXT⟩ := by
    have h0 : ¬((0 : ℚ) > 0) := by norm_num
    simp [findBestMatchV1, performVectorSearchV1, generateEmbeddingV1, genEmbedAux,
      cxEngineEnvV1, findTextV1, performTextSearchV1, h0]
  rw [hrun]
  exact ⟨rfl, rfl, by simp, rfl⟩

/-- **C4 (amended).** An outright embedding-provider failure is never
propagated by either engine: the exhaustive-scan `findBestMatch` returns
the non-confident null result for every knowledge-store contents, while in
the current revision the failure only disables vector search — with no
lexical hit the result is the non-confident NONE (but a lexical hit may
still produce a confident TEXT match). -/
theorem embed_failure_nonconfident_amended :
    (∀ (env : EngineEnvV2) (t : ℚ) (q msg : String),
      env.embed q = .error msg → findBestMatchV2 env t q = ⟨none, 0, false⟩) ∧
    (∀ (env : EngineEnvV1) (t : ℚ),
      generateEmbeddingV1 env = none → performTextSearchV1 env = none →
      findBestMatchV1 env t = ⟨none, 0, false, .NONE⟩) := by
  constructor
  · intro env t q msg h
    cases hkb : env.kbEntriesE with
    | error e => simp [findBestMatchV2, hkb]
    | ok l =>
      by_cases hl : l.isEmpty
      · simp [findBestMatchV2, hkb, hl]
      · simp [findBestMatchV2, hkb, hl, h]
  · intro env t h1 h2
    simp [findBestMatchV1, performVectorSearchV1, h1, findTextV1, h2]

theorem embed_failure_nonconfident_witness :
    findBestMatchV2 failEmbedEnvV2 (7 / 10) "how" = ⟨none, 0, false⟩ ∧
    findBestMatchV1 noHitEnvV1 (3 / 4) = ⟨none, 0, false, .NONE⟩ :=
  ⟨embed_failure_nonconfident_amended.1 failEmbedEnvV2 (7 / 10) "how"
     "Embedding service error: 503" rfl,
   embed_failure_nonconfident_amended.2 noHitEnvV1 (3 / 4) rfl rfl⟩

/-- **C8 counterexample.** The current revision has no validation guard:
an empty question with no identity is answered with COLLECT_INFO, not
ERROR. -/
theorem validation_guard_cx :
    (processQuestionV1 baseEnvV1 { user_question := "" }).1.response_type =
      .COLLECT_INFO ∧
    (processQuestionV1 baseEnvV1 { user_question := "" }).1.response_type ≠
      .ERROR := by
  refine ⟨rfl, ?_⟩
  decide

/-- **C8 (amended).** In the exhaustive-scan revision, a turn whose question
is empty (after trimming) or whose raw length exceeds 1000 characters is
answered ERROR immediately, with no matching-engine call, no ticketing call
and no unanswered-question write (that revision performs no identity
restore or parsing at all); the current revision has no such guard — an
empty question falls through its identity gate. -/
theorem validation_guard_amended (env : EnvV2) (req : ChatRequest)
    (h : (jsTrim req.user_question).data.isEmpty = true ∨
         req.user_question.length > 1000) :
    (processQuestionV2 env req).1.response_type = .ERROR ∧
    ((processQuestionV2 env req).2.filter
      (fun e => isMatchCallEvent e || isCaseCreateEvent e || isUnansweredEvent e)) = [] := by
  by_cases h1 : (jsTrim req.user_question).data.isEmpty
  · have hrun : processQuestionV2 env req = handleErrorV2 env := by
      simp [processQuestionV2, h1]
    rw [hrun]
    exact handleErrorV2_spec env
  · rcases h with h | h
    · exact absurd h (by simpa using h1)
    · have hrun : processQuestionV2 env req = handleErrorV2 env := by
        simp [processQuestionV2, h1, h]
      rw [hrun]
      exact handleErrorV2_spec env

theorem validation_guard_amended_witness :
    (processQuestionV2 baseEnvV2 { user_question := "   " }).1.response_type =
      .ERROR ∧
    ((processQuestionV2 baseEnvV2 { user_question := "   " }).2.filter
      (fun e => isMatchCallEvent e || isCaseCreateEvent e || isUnansweredEvent e)) = [] :=
  validation_guard_amended baseEnvV2 { user_question := "   " } (Or.inl (by decide))

theorem cosine_total_zeroMagnitude_throw_witness :
    calculateCosineSimilarity [(0 : ℚ), 0] [3, 4] = .ok 0 ∧
    (∃ msg, calculateCosineSimilarity [(1 : ℚ)] [1, 2] = .error msg) :=
  ⟨(cosine_total_zeroMagnitude_throw [(0 : ℚ), 0] [3, 4]).2.1 rfl
     (Or.inl sumSq_pair_zero),
   (cosine_total_zeroMagnitude_throw [(1 : ℚ)] [1, 2]).2.2.mpr (by decide)⟩

/-! ### Exhaustive-scan refinement lemmas (for C3) -/

/-- The code's running maximum over the variants equals the spec-shaped
fold of all variant similarities. -/
theorem entryMaxSimilarity_eq (env : EngineEnvV2) (ue : List ℚ) (qs : List String) :
    ∀ m : ℚ, entryMaxSimilarity env ue qs m =
      (variantSims env ue qs).map (fun sims => sims.foldl max m) := by
  induction qs with
  | nil => intro m; rfl
  | cons q rest ih =>
    intro m
    simp only [entryMaxSimilarity, variantSims]
    cases hqe : env.embed q with
    | error e => simp [hqe, Bind.bind, Except.bind, Except.map]
    | ok qe =>
      cases hcos : calculateCosineSimilarity ue qe with
      | error er => simp [hqe, hcos, Bind.bind, Except.bind, Except.map]
      | ok sim =>
        simp only [hqe, hcos, Bind.bind, Except.bind]
        rw [ih (max m sim)]
        cases hvs : variantSims env ue rest with
        | error er => simp [hvs, Except.map]
        | ok sims => simp [hvs, Except.map]

/-- The per-entry score computed by the scan's inner loop coincides with
the spec's "max similarity across all variants × confidence_weight". -/
theorem scoreEntry_eq_spec (env : EngineEnvV2) (ue : List ℚ) (e : KnowledgeEntry) :
    scoreEntry env ue e = specEntryScore env ue e := by
  rw [scoreEntry, specEntryScore, entryMaxSimilarity_eq]
  cases hvs : variantSims env ue (e.primary_question :: e.alternate_questions) with
  | error er => simp [hvs, Except.map, Bind.bind, Except.bind]
  | ok sims => simp [hvs, Except.map, Bind.bind, Except.bind]

theorem bestOkScore_cons (env : EngineEnvV2) (ue : List ℚ)
    (e : KnowledgeEntry) (rest : List KnowledgeEntry) :
    bestOkScore env ue (e :: rest) =
      match specEntryScore env ue e with
      | .ok s => max s (bestOkScore env ue rest)
      | .error _ => bestOkScore env ue rest := rfl

theorem bestOkScore_nonneg (env : EngineEnvV2) (ue : List ℚ)
    (l : List KnowledgeEntry) : 0 ≤ bestOkScore env ue l := by
  induction l with
  | nil => exact le_refl 0
  | cons e rest ih =>
    rw [bestOkScore_cons]
    cases h : specEntryScore env ue e with
    | error er => exact ih
    | ok s => exact le_trans ih (le_max_right s _)

/-- The scan's accumulator invariant for the best score: the final best
score is the maximum of the incoming accumulator and the best final score
of the remaining entries. -/
theorem scanEntries_snd (env : EngineEnvV2) (ue : List ℚ) (l : List KnowledgeEntry) :
    ∀ acc : Option KnowledgeEntry × ℚ, 0 ≤ acc.2 →
      (scanEntries env ue l acc).2 = max acc.2 (bestOkScore env ue l) := by
  induction l with
  | nil =>
    intro acc h
    exact (max_eq_left h).symm
  | cons e rest ih =>
    rintro ⟨bm, bs⟩ h
    rw [bestOkScore_cons]
    cases hs : scoreEntry env ue e with
    | error er =>
      have hs2 : specEntryScore env ue e = .error er := by
        rw [← scoreEntry_eq_spec]; exact hs
      simp only [scanEntries, hs, hs2]
      exact ih (bm, bs) h
    | ok s =>
      have hs2 : specEntryScore env ue e = .ok s := by
        rw [← scoreEntry_eq_spec]; exact hs
      simp only [scanEntries, hs, hs2]
      by_cases hgt : s > bs
      · rw [if_pos hgt]
        have h0s : (0 : ℚ) ≤ s := le_trans h (le_of_lt hgt)
        rw [ih (some e, s) h0s]
        have hb : bs ≤ max s (bestOkScore env ue rest) :=
          le_trans (le_of_lt hgt) (le_max_left _ _)
        exact (max_eq_right hb).symm
      · rw [if_neg hgt]
        rw [ih (bm, bs) h]
        have hsb : s ≤ bs := not_lt.mp hgt
        rw [← max_assoc, max_eq_left hsb]

/-- The scan's accumulator invariant for the best match: a positive final
best score is witnessed by an entry of the scanned list (or of the
incoming accumulator) whose spec score equals it. -/
theorem scanEntries_fst (env : EngineEnvV2) (ue : List ℚ)
    (FULL : List KnowledgeEntry) (l : List KnowledgeEntry) :
    ∀ acc : Option KnowledgeEntry × ℚ,
      (∀ x ∈ l, x ∈ FULL) →
      (0 < acc.2 → ∃ e, acc.1 = some e ∧ e ∈ FULL ∧
        specEntryScore env ue e = .ok acc.2) →
      (0 < (scanEntries env ue l acc).2 →
        ∃ e, (scanEntries env ue l acc).1 = some e ∧ e ∈ FULL ∧
          specEntryScore env ue e = .ok (scanEntries env ue l acc).2) := by
  induction l with
  | nil => intro acc _ hacc; exact hacc
  | cons x rest ih =>
    rintro ⟨bm, bs⟩ hsub hacc
    cases hs : scoreEntry env ue x with
    | error er =>
      simp only [scanEntries, hs]
      exact ih (bm, bs) (fun y hy => hsub y (List.mem_cons_of_mem _ hy)) hacc
    | ok s =>
      have hs2 : specEntryScore env ue x = .ok s := by
        rw [← scoreEntry_eq_spec]; exact hs
      simp only [scanEntries, hs]
      by_cases hgt : s > bs
      · rw [if_pos hgt]
        refine ih (some x, s) (fun y hy => hsub y (List.mem_cons_of_mem _ hy)) ?_
        intro _
        exact ⟨x, rfl, hsub x (List.mem_cons_self _ _), hs2⟩
      · rw [if_neg hgt]
        exact ih (bm, bs) (fun y hy => hsub y (List.mem_cons_of_mem _ hy)) hacc

/-- Every successfully scored entry's score is bounded by the best score. -/
theorem bestOkScore_ge (env : EngineEnvV2) (ue : List ℚ)
    (l : List KnowledgeEntry) (e : KnowledgeEntry) (he : e ∈ l) (s : ℚ)
    (hs : specEntryScore env ue e = .ok s) : s ≤ bestOkScore env ue l := by
  induction l with
  | nil => cases he
  | cons x rest ih =>
    rw [bestOkScore_cons]
    rcases List.mem_cons.mp he with rfl | hmem
    · rw [hs]
      exact le_max_left _ _
    · cases hx : specEntryScore env ue x with
      | error er => exact ih hmem
      | ok sx => exact le_trans (ih hmem) (le_max_right _ _)

/-- A failing entry is skipped: scanning around it equals scanning the
list without it, from any accumulator. -/
theorem scanEntries_skip (env : EngineEnvV2) (ue : List ℚ)
    (bad : KnowledgeEntry) (msg : String)
    (hbad : scoreEntry env ue bad = .error msg) :
    ∀ (xs ys : List KnowledgeEntry) (acc : Option KnowledgeEntry × ℚ),
      scanEntries env ue (xs ++ bad :: ys) acc = scanEntries env ue (xs ++ ys) acc := by
  intro xs
  induction xs with
  | nil =>
    rintro ys ⟨bm, bs⟩
    simp only [List.nil_append, scanEntries, hbad]
  | cons x rest ih =>
    rintro ys ⟨bm, bs⟩
    simp only [List.cons_append, scanEntries]
    cases hx : scoreEntry env ue x with
    | error er => exact ih ys (bm, bs)
    | ok s =>
      dsimp only
      by_cases hgt : s > bs
      · rw [if_pos hgt, if_pos hgt]
        exact ih ys (some x, s)
      · rw [if_neg hgt, if_neg hgt]
        exact ih ys (bm, bs)

/-- Reduction of `findBestMatchV2` under a healthy store and embedding. -/
theorem findBestMatchV2_run (env : EngineEnvV2) (t : ℚ) (q : String)
    (entries : List KnowledgeEntry) (ue : List ℚ)
    (hkb : env.kbEntriesE = .ok entries) (hne : entries ≠ [])
    (hue : env.embed q = .ok ue) :
    findBestMatchV2 env t q =
      ⟨if decide ((scanEntries env ue entries (none, 0)).2 ≥ t) = true
          then (scanEntries env ue entries (none, 0)).1 else none,
       (scanEntries env ue entries (none, 0)).2,
       decide ((scanEntries env ue entries (none, 0)).2 ≥ t)⟩ := by
  have hne2 : entries.isEmpty = false := by
    cases entries with
    | nil => exact absurd rfl hne
    | cons a l => rfl
  simp [findBestMatchV2, hkb, hne2, hue]

/-- **C3.** In exhaustive-scan mode, for a non-empty entry list and a
successfully embedded user question: the returned confidence score is the
globally best final score, where each entry's final score is the maximum
cosine similarity over its primary and alternate questions multiplied by
its `confidence_weight`; when the result is confident with a positive
score, the returned entry is one of the entries and attains that best
score (every scorable entry's score is bounded by it); and an entry whose
scoring fails is skipped without aborting the scan. -/
theorem exhaustiveScan_correct (env : EngineEnvV2) (t : ℚ) (q : String)
    (entries : List KnowledgeEntry) (ue : List ℚ)
    (hkb : env.kbEntriesE = .ok entries) (hne : entries ≠ [])
    (hue : env.embed q = .ok ue) :
    ((findBestMatchV2 env t q).confidence_score = bestOkScore env ue entries) ∧
    ((findBestMatchV2 env t q).is_confident = true →
      0 < (findBestMatchV2 env t q).confidence_score →
      ∃ e, (findBestMatchV2 env t q).matched_entry = some e ∧ e ∈ entries ∧
        specEntryScore env ue e = .ok (findBestMatchV2 env t q).confidence_score) ∧
    (∀ e ∈ entries, ∀ s, specEntryScore env ue e = .ok s →
      s ≤ (findBestMatchV2 env t q).confidence_score) ∧
    (∀ (xs ys : List KnowledgeEntry) (bad : KnowledgeEntry) (msg : String)
       (acc : Option KnowledgeEntry × ℚ),
      scoreEntry env ue bad = .error msg →
      scanEntries env ue (xs ++ bad :: ys) acc = scanEntries env ue (xs ++ ys) acc) := by
  have hrun := findBestMatchV2_run env t q entries ue hkb hne hue
  have hscore : (findBestMatchV2 env t q).confidence_score =
      (scanEntries env ue entries (none, 0)).2 := by rw [hrun]
  have hbest : (scanEntries env ue entries (none, 0)).2 = bestOkScore env ue entries := by
    rw [scanEntries_snd env ue entries (none, 0) (le_refl 0),
      max_eq_right (bestOkScore_nonneg env ue entries)]
  refine ⟨by rw [hscore, hbest], ?_, ?_, ?_⟩
  · intro hconf hpos
    have hconf2 : decide ((scanEntries env ue entries (none, 0)).2 ≥ t) = true := by
      rw [hrun] at hconf
      exact hconf
    have hm : (findBestMatchV2 env t q).matched_entry =
        (scanEntries env ue entries (none, 0)).1 := by
      rw [hrun]
      simp [hconf2]
    have hpos2 : 0 < (scanEntries env ue entries (none, 0)).2 := by
      rw [← hscore]
      exact hpos
    obtain ⟨e, he1, he2, he3⟩ :=
      scanEntries_fst env ue entries entries (none, 0) (fun x hx => hx)
        (fun h => absurd h (by norm_num)) hpos2
    exact ⟨e, by rw [hm]; exact he1, he2, by rw [hscore]; exact he3⟩
  · intro e he s hs
    rw [hscore, hbest]
    exact bestOkScore_ge env ue entries e he s hs
  · intro xs ys bad msg acc hbad
    exact scanEntries_skip env ue bad msg hbad xs ys acc

/-! ### Escalation-path lemmas (for C5 and C6) -/

/-- With a valid question and complete identity, the exhaustive-scan
`processQuestion` goes straight to escalation with the mock non-confident
match result, without invoking the matching engine. -/
theorem processQuestionV2_identified (env : EnvV2) (req : ChatRequest)
    (hq : (jsTrim req.user_question).data.isEmpty = false)
    (hlen : ¬(req.user_question.length > 1000))
    (hcomplete : userInfoComplete req.user_info = true) :
    processQuestionV2 env req = handleEscalationV2 env req mockMatchResult := by
  simp [processQuestionV2, hq, hlen, hcomplete]

/-- Escalation with complete identity, a succeeding ticketing call and
succeeding writes: ESCALATED with the ticket-issued case id and exactly
the three recorded effects. -/
theorem handleEscalationV2_run_ok (env : EnvV2) (req : ChatRequest)
    (n e o : String) (mr : MatchResultV2) (c : String)
    (hinfo : req.user_info = some ⟨some n, some e, some o⟩)
    (hn : n ≠ "") (he : e ≠ "") (ho : o ≠ "")
    (hcase : env.createCase (caseArgsOf req n e o mr) = .ok c)
    (hlog : env.chatLogCreate "ESCALATED" = .ok ())
    (hun : env.unansweredCreate req.user_question = .ok ()) :
    handleEscalationV2 env req mr =
      ({ response_type := .ESCALATED,
         message := some (escalationMsgV2 n e o c),
         case_id := some c },
       [.caseCreate (caseArgsOf req n e o mr), .chatLog "ESCALATED",
        .unansweredCreate req.user_question]) := by
  rw [caseArgsOf] at hcase
  simp [handleEscalationV2, hinfo, userInfoComplete_some hn he ho, hcase,
    hlog, hun, caseArgsOf]

/-- Escalation with complete identity, a failing ticketing call and
succeeding writes: still ESCALATED, with the synthesized fallback case id
`` `SF-${Date.now()}` ``. -/
theorem handleEscalationV2_run_fallback (env : EnvV2) (req : ChatRequest)
    (n e o : String) (mr : MatchResultV2) (msg : String)
    (hinfo : req.user_info = some ⟨some n, some e, some o⟩)
    (hn : n ≠ "") (he : e ≠ "") (ho : o ≠ "")
    (hcase : env.createCase (caseArgsOf req n e o mr) = .error msg)
    (hlog : env.chatLogCreate "ESCALATED" = .ok ())
    (hun : env.unansweredCreate req.user_question = .ok ()) :
    handleEscalationV2 env req mr =
      ({ response_type := .ESCALATED,
         message := some (escalationMsgV2 n e o ("SF-" ++ toString env.now)),
         case_id := some ("SF-" ++ toString env.now) },
       [.caseCreate (caseArgsOf req n e o mr), .chatLog "ESCALATED",
        .unansweredCreate req.user_question]) := by
  rw [caseArgsOf] at hcase
  simp [handleEscalationV2, hinfo, userInfoComplete_some hn he ho, hcase,
    hlog, hun, caseArgsOf]

/-- **C5 counterexample.** In the current revision, a turn with known
identity and a non-confident match is answered ESCALATED with a locally
synthesized case id (`00` + six random digits) while the trace contains no
Case Creation call at all — the case_id is not obtained from Case
Creation.  (Exactly one unanswered-question record is still written.) -/
theorem escalation_case_creation_cx :
    (processQuestionV1 baseEnvV1 cxReqIdentified).1.response_type = .ESCALATED ∧
    (processQuestionV1 baseEnvV1 cxReqIdentified).1.case_id = some "00223456" ∧
    ((processQuestionV1 baseEnvV1 cxReqIdentified).2.filter isCaseCreateEvent) = [] ∧
    ((processQuestionV1 baseEnvV1 cxReqIdentified).2.filter isUnansweredEvent).length
      = 1 := by
  refine ⟨rfl, rfl, rfl, rfl⟩

/-- **C5 (amended).** In the exhaustive-scan revision the claim holds as
stated: a turn with known identity (which that revision always treats as
an escalation turn, hence never a confident match) returns ESCALATED with
the case id issued by Case Creation, which is called with the question,
the detected category, the confidence score and the identity, and exactly
one unanswered-question record is created; in the current revision the
escalated turn instead synthesizes its case id locally without calling
Case Creation (still writing exactly one unanswered-question record). -/
theorem escalation_case_creation_amended (env : EnvV2) (req : ChatRequest)
    (n e o c : String)
    (hinfo : req.user_info = some ⟨some n, some e, some o⟩)
    (hn : n ≠ "") (he : e ≠ "") (ho : o ≠ "")
    (hq : (jsTrim req.user_question).data.isEmpty = false)
    (hlen : ¬(req.user_question.length > 1000))
    (hcase : env.createCase (caseArgsOf req n e o mockMatchResult) = .ok c)
    (hlog : env.chatLogCreate "ESCALATED" = .ok ())
    (hun : env.unansweredCreate req.user_question = .ok ()) :
    (processQuestionV2 env req).1.response_type = .ESCALATED ∧
    (processQuestionV2 env req).1.case_id = some c ∧
    (processQuestionV2 env req).2 =
      [.caseCreate (caseArgsOf req n e o mockMatchResult), .chatLog "ESCALATED",
       .unansweredCreate req.user_question] ∧
    ((processQuestionV2 env req).2.filter isUnansweredEvent).length = 1 := by
  have hcomp : userInfoComplete req.user_info = true := by
    rw [hinfo]
    exact userInfoComplete_some hn he ho
  have hrun := processQuestionV2_identified env req hq hlen hcomp
  have hesc := handleEscalationV2_run_ok env req n e o mockMatchResult c hinfo
    hn he ho hcase hlog hun
  rw [hrun, hesc]
  refine ⟨rfl, rfl, rfl, ?_⟩
  simp [isUnansweredEvent, isCaseCreateEvent, List.filter]

theorem escalation_case_creation_amended_witness :
    (processQuestionV2 baseEnvV2 cxReqIdentified).1.response_type = .ESCALATED ∧
    (processQuestionV2 baseEnvV2 cxReqIdentified).1.case_id = some "CASE-1" ∧
    (processQuestionV2 baseEnvV2 cxReqIdentified).2 =
      [.caseCreate (caseArgsOf cxReqIdentified "Kanak" "kanak@mps.com" "MPS"
         mockMatchResult),
       .chatLog "ESCALATED", .unansweredCreate cxReqIdentified.user_question] ∧
    ((processQuestionV2 baseEnvV2 cxReqIdentified).2.filter isUnansweredEvent).length
      = 1 :=
  escalation_case_creation_amended baseEnvV2 cxReqIdentified
    "Kanak" "kanak@mps.com" "MPS" "CASE-1" rfl
    (by decide) (by decide) (by decide) (by decide) (by decide) rfl rfl rfl

/-- **C6.** Whenever case creation fails, `createCase` retries exactly once
(the trace shows precisely two POST attempts) after forcing a fresh
re-authentication (the retry's auth event is `authFresh` even when a valid
cached token existed); a succeeding first attempt performs no retry; when
the retry also fails `createCase` throws, and the escalated chat turn then
still returns ESCALATED with the synthesized fallback case id — never
ERROR. -/
theorem ticketing_retry_fallback :
    (∀ (env : SfEnv) (st : SfState) (tok e1 : String),
      st.useMockMode = false → st.accessToken = none →
      env.authResult = .ok tok → env.postCase false = .error e1 →
      (createCaseSf env st).2 =
        [.authFresh, .postAttempt false, .authFresh, .postAttempt true] ∧
      (∀ e2, env.postCase true = .error e2 →
        (createCaseSf env st).1 =
          .error "Failed to create Salesforce case after retry") ∧
      (∀ id2, env.postCase true = .ok id2 → (createCaseSf env st).1 = .ok id2)) ∧
    (∀ (env : SfEnv) (st : SfState) (tok0 tok e1 : String),
      st.useMockMode = false → st.accessToken = some tok0 → st.tokenValid = true →
      env.authResult = .ok tok → env.postCase false = .error e1 →
      (createCaseSf env st).2 =
        [.authCached, .postAttempt false, .authFresh, .postAttempt true]) ∧
    (∀ (env : SfEnv) (st : SfState) (tok id1 : String),
      st.useMockMode = false → st.accessToken = none →
      env.authResult = .ok tok → env.postCase false = .ok id1 →
      (createCaseSf env st).1 = .ok id1 ∧
      (createCaseSf env st).2 = [.authFresh, .postAttempt false]) ∧
    (∀ (env2 : EnvV2) (req : ChatRequest) (n e o msg : String),
      req.user_info = some ⟨some n, some e, some o⟩ →
      n ≠ "" → e ≠ "" → o ≠ "" →
      (jsTrim req.user_question).data.isEmpty = false →
      ¬(req.user_question.length > 1000) →
      env2.createCase (caseArgsOf req n e o mockMatchResult) = .error msg →
      env2.chatLogCreate "ESCALATED" = .ok () →
      env2.unansweredCreate req.user_question = .ok () →
      (processQuestionV2 env2 req).1.response_type = .ESCALATED ∧
      (processQuestionV2 env2 req).1.case_id = some ("SF-" ++ toString env2.now)) := by
  refine ⟨?_, ?_, ?_, ?_⟩
  · intro env st tok e1 hmock hat hauth hpost1
    refine ⟨?_, ?_, ?_⟩
    · simp [createCaseSf, authenticateSf, createCaseRetrySf, hmock, hat, hauth, hpost1]
      cases hpost2 : env.postCase true <;> simp
    · intro e2 hpost2
      simp [createCaseSf, authenticateSf, createCaseRetrySf, hmock, hat, hauth,
        hpost1, hpost2]
    · intro id2 hpost2
      simp [createCaseSf, authenticateSf, createCaseRetrySf, hmock, hat, hauth,
        hpost1, hpost2]
  · intro env st tok0 tok e1 hmock hat hvalid hauth hpost1
    simp [createCaseSf, authenticateSf, createCaseRetrySf, hmock, hat, hvalid,
      hauth, hpost1]
    cases hpost2 : env.postCase true <;> simp
  · intro env st tok id1 hmock hat hauth hpost1
    constructor <;>
      simp [createCaseSf, authenticateSf, createCaseRetrySf, hmock, hat, hauth, hpost1]
  · intro env2 req n e o msg hinfo hn he ho hq hlen hcase hlog hun
    have hcomp : userInfoComplete req.user_info = true := by
      rw [hinfo]
      exact userInfoComplete_some hn he ho
    have hrun := processQuestionV2_identified env2 req hq hlen hcomp
    have hesc := handleEscalationV2_run_fallback env2 req n e o mockMatchResult msg
      hinfo hn he ho hcase hlog hun
    rw [hrun, hesc]
    exact ⟨rfl, rfl⟩

theorem ticketing_retry_fallback_witness :
    ((createCaseSf sfFailEnv sfStNoTok).2 =
      [.authFresh, .postAttempt false, .authFresh, .postAttempt true]) ∧
    ((createCaseSf sfFailEnv sfStNoTok).1 =
      .error "Failed to create Salesforce case after retry") ∧
    ((createCaseSf sfFailEnv sfStCached).2 =
      [.authCached, .postAttempt false, .authFresh, .postAttempt true]) ∧
    ((processQuestionV2 envV2CaseFail cxReqIdentified).1.response_type =
      .ESCALATED) ∧
    ((processQuestionV2 envV2CaseFail cxReqIdentified).1.case_id =
      some ("SF-" ++ toString envV2CaseFail.now)) :=
  ⟨(ticketing_retry_fallback.1 sfFailEnv sfStNoTok "freshTok" "HTTP 503"
      rfl rfl rfl rfl).1,
   (ticketing_retry_fallback.1 sfFailEnv sfStNoTok "freshTok" "HTTP 503"
      rfl rfl rfl rfl).2.1 "HTTP 503" rfl,
   ticketing_retry_fallback.2.1 sfFailEnv sfStCached "cachedTok" "freshTok"
     "HTTP 503" rfl rfl rfl rfl rfl,
   (ticketing_retry_fallback.2.2.2 envV2CaseFail cxReqIdentified
      "Kanak" "kanak@mps.com" "MPS" "ticketing down" rfl
      (by decide) (by decide) (by decide) (by decide) (by decide) rfl rfl rfl).1,
   (ticketing_retry_fallback.2.2.2 envV2CaseFail cxReqIdentified
      "Kanak" "kanak@mps.com" "MPS" "ticketing down" rfl
      (by decide) (by decide) (by decide) (by decide) (by decide) rfl rfl rfl).2⟩

/-- **C7.** When identity is absent and the input looks like an identity
submission, the current revision splits the trimmed input on `,` (trimming
each token): the first token containing `@` becomes the email, the first
token the name, and the third token — when present and non-empty — the
organization, otherwise the organization is derived from the email's
domain label, capitalized (`extractOrgFromEmail`); the parsed identity is
upserted into the user store and the turn is answered with the
verification message.  In particular `"Kanak, kanak@mps.com, MPS"` parses
to name `Kanak`, email `kanak@mps.com`, organization `MPS`, and
`"Kanak, kanak@mps.com"` derives organization `Mps`. -/
theorem identity_parse_correct (env : EnvV1) (req : ChatRequest)
    (parts : List String) (email name org : String)
    (hrest : restoreUserInfo env req = none)
    (hl1 : containsChar (jsTrim req.user_question) ',' = true)
    (hl2 : containsChar (jsTrim req.user_question) '@' = true)
    (hparts : (jsSplit (jsTrim req.user_question) ',').map jsTrim = parts)
    (hfind : parts.find? (fun p => containsChar p '@') = some email)
    (hname : parts.headD "" = name)
    (hnm : name.data.isEmpty = false)
    (horg : parsedOrg parts email = org)
    (hup : env.upsertUser name email org = .ok ()) :
    ((processQuestionV1 env req).1.response_type = .ANSWERED ∧
     (processQuestionV1 env req).2 =
       [ChatEvent.upsertUser name email org] ++
       (if optTruthy req.user_session_id = true then
          [ChatEvent.sessionSet ((req.user_session_id).getD "")]
        else [])) ∧
    ((processQuestionV1 baseEnvV1 reqIdentityEx1).1.response_type = .ANSWERED ∧
     (processQuestionV1 baseEnvV1 reqIdentityEx1).2 =
       [ChatEvent.upsertUser "Kanak" "kanak@mps.com" "MPS"]) ∧
    ((processQuestionV1 baseEnvV1 reqIdentityEx2).1.response_type = .ANSWERED ∧
     (processQuestionV1 baseEnvV1 reqIdentityEx2).2 =
       [ChatEvent.upsertUser "Kanak" "kanak@mps.com" "Mps"]) := by
  refine ⟨?_, ⟨rfl, rfl⟩, ⟨rfl, rfl⟩⟩
  have hname2 : parts.head?.getD "" = name := by
    rw [← hname]
    cases parts <;> rfl
  constructor
  · simp [processQuestionV1, processQuestionBodyV1, hrest, hasIdentity, hl1, hl2,
      hparts, hfind, hname, hname2, hnm, horg, hup]
  · simp [processQuestionV1, processQuestionBodyV1, hrest, hasIdentity, hl1, hl2,
      hparts, hfind, hname, hname2, hnm, horg, hup]

theorem identity_parse_correct_witness :
    ((processQuestionV1 baseEnvV1 reqIdentityEx1).1.response_type = .ANSWERED ∧
     (processQuestionV1 baseEnvV1 reqIdentityEx1).2 =
       [ChatEvent.upsertUser "Kanak" "kanak@mps.com" "MPS"] ++
       (if optTruthy reqIdentityEx1.user_session_id = true then
          [ChatEvent.sessionSet ((reqIdentityEx1.user_session_id).getD "")]
        else [])) ∧
    ((processQuestionV1 baseEnvV1 reqIdentityEx1).1.response_type = .ANSWERED ∧
     (processQuestionV1 baseEnvV1 reqIdentityEx1).2 =
       [ChatEvent.upsertUser "Kanak" "kanak@mps.com" "MPS"]) ∧
    ((processQuestionV1 baseEnvV1 reqIdentityEx2).1.response_type = .ANSWERED ∧
     (processQuestionV1 baseEnvV1 reqIdentityEx2).2 =
       [ChatEvent.upsertUser "Kanak" "kanak@mps.com" "Mps"]) :=
  identity_parse_correct baseEnvV1 reqIdentityEx1
    ["Kanak", "kanak@mps.com", "MPS"] "kanak@mps.com" "Kanak" "MPS"
    rfl rfl rfl rfl rfl rfl rfl rfl rfl

theorem exhaustiveScan_correct_witness :
    ((findBestMatchV2 scanWitEnv (7 / 10) "q").confidence_score =
      bestOkScore scanWitEnv [1] [witEntry]) ∧
    ((findBestMatchV2 scanWitEnv (7 / 10) "q").is_confident = true →
      0 < (findBestMatchV2 scanWitEnv (7 / 10) "q").confidence_score →
      ∃ e, (findBestMatchV2 scanWitEnv (7 / 10) "q").matched_entry = some e ∧
        e ∈ [witEntry] ∧
        specEntryScore scanWitEnv [1] e =
          .ok ((findBestMatchV2 scanWitEnv (7 / 10) "q").confidence_score)) ∧
    (∀ e ∈ [witEntry], ∀ s, specEntryScore scanWitEnv [1] e = .ok s →
      s ≤ (findBestMatchV2 scanWitEnv (7 / 10) "q").confidence_score) ∧
    (∀ (xs ys : List KnowledgeEntry) (bad : KnowledgeEntry) (msg : String)
       (acc : Option KnowledgeEntry × ℚ),
      scoreEntry scanWitEnv [1] bad = .error msg →
      scanEntries scanWitEnv [1] (xs ++ bad :: ys) acc =
        scanEntries scanWitEnv [1] (xs ++ ys) acc) :=
  exhaustiveScan_correct scanWitEnv (7 / 10) "q" [witEntry] [1] rfl
    (List.cons_ne_nil _ _) rfl

end SupportChatbot
